import Mathlib

/-!
Verification of the zh-scopus filter/sort/aggregate/export pipeline
(`src/app.py`, `src/utils_pdf.py`) against its specification.

The Python string primitives used by the code (`str.split`, `str.strip`,
`str.lower`, the `in` substring test, slicing, `"|".join`) are embedded as
executable functions on `List Char` / `String`.  Records are embedded as a
structure with the canonical fields of the data model; pandas column
operations become list operations; the boolean `mask` of `app.py` becomes a
decidable predicate and `df[mask]` becomes `List.filter`.
-/

set_option maxRecDepth 10000

namespace ZhScopus

/-- Python `str.split(sep)` with a one-character separator: splits at every
occurrence, keeps empty pieces, and returns `[""]` on the empty string. -/
def splitOnChar (sep : Char) : List Char → List (List Char)
  | [] => [[]]
  | c :: cs =>
    match splitOnChar sep cs with
    | [] => if c = sep then [[], []] else [[c]]
    | h :: t => if c = sep then [] :: h :: t else (c :: h) :: t

/-- Python `str.strip()` on a character list: drop leading and trailing
whitespace. -/
def stripChars (cs : List Char) : List Char :=
  ((cs.dropWhile Char.isWhitespace).reverse.dropWhile Char.isWhitespace).reverse

/-- Python `str.strip()` on strings. -/
def stripStr (s : String) : String := String.mk (stripChars s.toList)

/-- Python `str.lower()` restricted to ASCII case folding.  The code folds
full Unicode; the model is exact on ASCII text, and the search theorem
carries explicit ASCII hypotheses on the fields and query it speaks about. -/
def lowerStr (s : String) : String := String.mk (s.toList.map Char.toLower)

/-- The Python substring test `needle in hay` on character lists. -/
def isSubChars (needle : List Char) : List Char → Bool
  | [] => needle.isEmpty
  | c :: t => needle.isPrefixOf (c :: t) || isSubChars needle t

/-- The Python substring test `needle in hay` on strings: exact for the
author allow-list filter (`a in x`, line 138).  Where the code instead calls
`Series.str.contains(pat)` (regex search, lines 146-148), this model
coincides with the code only for metacharacter-free literal patterns, on
which a regex matches exactly its literal occurrences; the search theorem
restricts its scope to that domain. -/
def containsSub (hay needle : String) : Bool := isSubChars needle.toList hay.toList

/-- The regex metacharacters of Python `re`; a pattern containing none of
them is matched by `Series.str.contains` exactly as a literal substring
(and can never raise `re.error`). -/
def regexMetaChars : List Char :=
  ['.', '^', '$', '*', '+', '?', '\x7b', '\x7d', '[', ']', '\\', '|', '(', ')']

/-- A query character for which the substring model is exact: printable
ASCII (so `str.strip`/`str.lower` agree with `stripChars`/`Char.toLower`)
and not a regex metacharacter (so `str.contains` means literal containment). -/
def plainQueryChar (c : Char) : Bool :=
  decide (32 ≤ c.toNat) && decide (c.toNat ≤ 126) && !(regexMetaChars.contains c)

/-- A search query on which the embedded search semantics are exact. -/
def plainLiteralQuery (q : String) : Bool := q.toList.all plainQueryChar

/-- Text whose Unicode lowercasing is its ASCII lowercasing, making
`lowerStr` exact on it. -/
def asciiOnly (s : String) : Bool := s.toList.all (fun c => decide (c.toNat ≤ 127))

/-- Python `str.split(";")` on strings, the author-list splitter. -/
def splitSemicolon (s : String) : List String :=
  (splitOnChar ';' s.toList).map String.mk

/-- One publication record as produced by `load_data` (`app.py` lines 33-66),
restricted to the fields the filter/aggregate pipeline reads.  `year` is the
nullable Int64 column, `percentile_2024` the nullable float column (embedded
as `ℚ`), `quartile` the raw nullable text column. -/
structure Record where
  authors_raw : String := ""
  authors_full : String := ""
  title : String := ""
  year : Option Int := none
  source : String := ""
  cited_by : Int := 0
  quartile : Option String := none
  percentile_2024 : Option ℚ := none
deriving Repr, DecidableEq

/-- The sidebar filter state of `app.py` (lines 70-128): year slider bounds,
source and author multiselects, quartile multiselect, percentile slider
bounds, and the raw text of the search box. -/
structure FilterSpec where
  year_lo : Int := 0
  year_hi : Int := 3000
  sources : List String := []
  authors : List String := []
  quartiles : List String := ["Q1", "Q2", "Q3", "Q4"]
  pct_lo : Int := 0
  pct_hi : Int := 100
  search_raw : String := ""

/-- `df["year"].between(lo, hi)` (line 131): a missing year gives a masked-out
row (pandas nullable-boolean masking treats NA as False). -/
def yearOk (lo hi : Int) : Option Int → Bool
  | none => false
  | some y => decide (lo ≤ y) && decide (y ≤ hi)

/-- `df["source"].isin(selected_sources)` guarded by `if selected_sources:`
(lines 133-134). -/
def sourcesOk (allow : List String) (s : String) : Bool :=
  if allow.isEmpty then true else allow.contains s

/-- `any(a in x for a in selected_authors)` over `str(authors_full)`, guarded
by `if selected_authors:` (lines 136-139). -/
def authorsOk (allow : List String) (af : String) : Bool :=
  if allow.isEmpty then true else allow.any (fun a => containsSub af a)

/-- `df["quartile"].astype(str)`: a missing quartile stringifies to `"nan"`. -/
def quartileStr : Option String → String
  | none => "nan"
  | some q => q

/-- `df["quartile"].astype(str).isin(selected_quartiles)` (line 141). -/
def quartileOk (sel : List String) (q : Option String) : Bool :=
  sel.contains (quartileStr q)

/-- `df["percentile_2024"].fillna(-1).between(lo, hi)` (line 142): the missing
percentile becomes the sentinel `-1` before the inclusive range test. -/
def pctOk (lo hi : Int) (p : Option ℚ) : Bool :=
  decide ((lo : ℚ) ≤ p.getD (-1)) && decide (p.getD (-1) ≤ (hi : ℚ))

/-- One record's hit of the free-text search (lines 145-149): the query is
matched against the three lowercase helper columns `_authors_full_lc`,
`_title_lc`, `_source_lc` built at load time (lines 62-64).  The
`.str.contains` calls are embedded as literal containment, exact on the
metacharacter-free ASCII domain delimited by `plainLiteralQuery` and
`asciiOnly`. -/
def searchHit (q : String) (r : Record) : Bool :=
  containsSub (lowerStr r.authors_full) q ||
  containsSub (lowerStr r.title) q ||
  containsSub (lowerStr r.source) q

/-- The search conjunct of the mask: the box text is stripped and lowered
(line 112) and an empty query leaves the mask untouched (line 144). -/
def searchOk (raw : String) (r : Record) : Bool :=
  if stripStr (lowerStr raw) = "" then true
  else searchHit (stripStr (lowerStr raw)) r

/-- The combined boolean mask of lines 131-149: conjunction of the year,
source, author, quartile, percentile and search conditions. -/
def mask (F : FilterSpec) (r : Record) : Bool :=
  yearOk F.year_lo F.year_hi r.year &&
  sourcesOk F.sources r.source &&
  authorsOk F.authors r.authors_full &&
  quartileOk F.quartiles r.quartile &&
  pctOk F.pct_lo F.pct_hi r.percentile_2024 &&
  searchOk F.search_raw r

/-- `filtered = df[mask]` (line 151). -/
def filterRecords (F : FilterSpec) (rs : List Record) : List Record :=
  rs.filter (mask F)

/-! ## Dataset loader: cell-level type coercion and DOI derivation -/

/-- One spreadsheet cell as pandas hands it to the coercion code: missing
(`NaN`), an integer-valued or finite float-valued number (floats embedded as
exact rationals), an infinite float, or text. -/
inductive Cell where
  | na : Cell
  | int : Int → Cell
  | float : ℚ → Cell
  | inf : Cell
  | ninf : Cell
  | str : String → Cell
deriving Repr, DecidableEq

/-- A value of the float64 column produced by `pd.to_numeric`: a finite
number or an infinity.  (`NaN` entries of that column — missing cells,
coerced unparseables and literal `"nan"` text — are the `none` of
`Option PyNum`.) -/
inductive PyNum where
  | fin : ℚ → PyNum
  | inf : PyNum
  | ninf : PyNum
deriving Repr, DecidableEq

/-- Negation of a parsed number, for a leading `-` sign. -/
def PyNum.neg : PyNum → PyNum
  | PyNum.fin q => PyNum.fin (-q)
  | PyNum.inf => PyNum.ninf
  | PyNum.ninf => PyNum.inf

/-- Value of a digit string. -/
def digitsVal (cs : List Char) : Nat :=
  cs.foldl (fun a c => a * 10 + (c.toNat - 48)) 0

/-- A non-empty all-digit run, or nothing. -/
def parseDigits (cs : List Char) : Option Nat :=
  if !cs.isEmpty && cs.all Char.isDigit then some (digitsVal cs) else none

/-- Split a character list at its first `e`/`E` (exponent marker). -/
def splitExpChars : List Char → List Char × Option (List Char)
  | [] => ([], none)
  | c :: cs =>
    if c = 'e' ∨ c = 'E' then ([], some cs)
    else
      match splitExpChars cs with
      | (m, e) => (c :: m, e)

/-- Split a character list at its first `.` (decimal point). -/
def splitDotChars : List Char → List Char × Option (List Char)
  | [] => ([], none)
  | c :: cs =>
    if c = '.' then ([], some cs)
    else
      match splitDotChars cs with
      | (i, f) => (c :: i, f)

/-- An unsigned decimal mantissa: `digits`, `digits.digits`, `digits.` or
`.digits` (at least one digit overall), kept as the pair (all digits read as
one integer, number of fractional digits), so `"3.5"` is `(35, 1)`, meaning
`35 / 10 ^ 1`. -/
def parseMantissa (cs : List Char) : Option (Nat × Nat) :=
  match splitDotChars cs with
  | (ip, none) =>
    if !ip.isEmpty && ip.all Char.isDigit then some (digitsVal ip, 0) else none
  | (ip, some fp) =>
    if ip.all Char.isDigit && fp.all Char.isDigit && (!ip.isEmpty || !fp.isEmpty) then
      some (digitsVal (ip ++ fp), fp.length)
    else none

/-- An exponent: optional sign and a non-empty digit run. -/
def parseExpPart (cs : List Char) : Option Int :=
  match cs with
  | '+' :: ds => (parseDigits ds).map (fun n => (n : Int))
  | '-' :: ds => (parseDigits ds).map (fun n => -(n : Int))
  | ds => (parseDigits ds).map (fun n => (n : Int))

/-- The exact rational `m / 10 ^ f * 10 ^ e` of a mantissa `(m, f)` and a
decimal exponent `e`, built with `mkRat` over integer arithmetic. -/
def mantissaExpVal (m : Nat) (f : Nat) (e : Int) : ℚ :=
  if 0 ≤ e then mkRat ((m : Int) * (10 : Int) ^ e.toNat) (10 ^ f)
  else mkRat (m : Int) (10 ^ f * 10 ^ (-e).toNat)

/-- An unsigned finite numeric literal, mantissa and optional exponent. -/
def parseUnsignedNum (cs : List Char) : Option ℚ :=
  match splitExpChars cs with
  | (m, none) => (parseMantissa m).map (fun p => mantissaExpVal p.1 p.2 0)
  | (m, some ecs) =>
    match parseMantissa m, parseExpPart ecs with
    | some p, some e => some (mantissaExpVal p.1 p.2 e)
    | _, _ => none

/-- An unsigned numeric token as `pd.to_numeric` accepts it: the
case-insensitive names `inf`/`infinity` (an infinity), `nan` (a NaN entry,
i.e. `none`), or a finite decimal/exponent literal. -/
def parseUnsigned (cs : List Char) : Option PyNum :=
  let lc := cs.map Char.toLower
  if lc = "inf".toList ∨ lc = "infinity".toList then some PyNum.inf
  else if lc = "nan".toList then none
  else (parseUnsignedNum cs).map PyNum.fin

/-- Numeric parsing as `pd.to_numeric` accepts text cells: optional
surrounding whitespace, optional sign, then a decimal/exponent literal or an
`inf`/`nan` name; anything else is unparseable (coerced to NaN, `none`). -/
def parseNumStr (s : String) : Option PyNum :=
  match stripChars s.toList with
  | [] => none
  | '-' :: cs => (parseUnsigned cs).map PyNum.neg
  | '+' :: cs => parseUnsigned cs
  | cs => parseUnsigned cs

/-- `pd.to_numeric(col, errors="coerce")` on one cell: numbers (finite or
infinite) pass through, parseable text becomes its number, everything else
becomes NaN (`none`). -/
def toNumeric : Cell → Option PyNum
  | Cell.na => none
  | Cell.int n => some (PyNum.fin (mkRat n 1))
  | Cell.float q => some (PyNum.fin q)
  | Cell.inf => some PyNum.inf
  | Cell.ninf => some PyNum.ninf
  | Cell.str s => parseNumStr s

/-- `astype(int)`'s float-to-int conversion: C-cast truncation toward zero. -/
def truncQ (q : ℚ) : Int := if 0 ≤ q then q.floor else -(-q).floor

/-- Decidable equality of `Except` results, so concrete outcomes of the
fallible load steps can be checked by evaluation. -/
instance instDecEqExcept {ε α : Type} [DecidableEq ε] [DecidableEq α] :
    DecidableEq (Except ε α) := fun x y =>
  match x, y with
  | Except.ok a, Except.ok b =>
    if h : a = b then isTrue (by rw [h])
    else isFalse (fun hc => h (by injection hc))
  | Except.error e, Except.error f =>
    if h : e = f then isTrue (by rw [h])
    else isFalse (fun hc => h (by injection hc))
  | Except.ok _, Except.error _ => isFalse (fun hc => Except.noConfusion hc)
  | Except.error _, Except.ok _ => isFalse (fun hc => Except.noConfusion hc)

/-- `pd.to_numeric(...).fillna(0).astype(int)` (`app.py` line 53): the
`cited_by` field of the loaded record.  `fillna(0)` replaces NaN entries,
then `astype(int)` truncates finite values toward zero and raises
`ValueError` ("Cannot convert non-finite values ...") on infinities. -/
def loadCitedBy (c : Cell) : Except String Int :=
  match (toNumeric c).getD (PyNum.fin 0) with
  | PyNum.fin q => Except.ok (truncQ q)
  | _ => Except.error "ValueError"

/-- `pd.notna(x)`. -/
def notna : Cell → Bool
  | Cell.na => false
  | _ => true

/-- Python `str(x)` on a cell value (`str(nan) = "nan"`).  The rendering of
a finite float cell is irrelevant to every property proved here — only its
non-blankness is ever consulted, and both the model's and Python's rendering
of a number are non-blank. -/
def pyStr : Cell → String
  | Cell.na => "nan"
  | Cell.int n => toString n
  | Cell.float q => toString q
  | Cell.inf => "inf"
  | Cell.ninf => "-inf"
  | Cell.str s => s

/-- The DOI lambda of `app.py` lines 57-59:
`https://doi.org/{x.strip()}` if `pd.notna(x) and str(x).strip()` else `None`.
The guard stringifies `x` before stripping, but the body calls `x.strip()`
directly, which is an `AttributeError` on any non-string value — modelled by
the `error` branch. -/
def doiCellLink (x : Cell) : Except String (Option String) :=
  if notna x = true ∧ stripStr (pyStr x) ≠ "" then
    match x with
    | Cell.str s => Except.ok (some ("https://doi.org/" ++ stripStr s))
    | _ => Except.error "AttributeError"
  else Except.ok none

/-! ## By-author aggregation (`app.py` lines 279-287) -/

/-- The author pieces a record's `authors_full` contributes after
`str.split(";")`, `str.strip()` and dropping empty pieces
(`app.py` lines 281-284).  Duplicated pieces are kept, exactly as `explode`
keeps them. -/
def authorPieces (af : String) : List String :=
  ((splitSemicolon af).map stripStr).filter (fun a => a ≠ "")

/-- The exploded rows: one `(author, record)` membership per surviving piece
(`assign(_authors=...).explode("_authors")` after strip and filter). -/
def authorMemberships (rs : List Record) : List (String × Record) :=
  rs.flatMap (fun r => (authorPieces r.authors_full).map (fun a => (a, r)))

/-- `groupby("_authors").agg(pub_count=("title", "count"))`: the number of
exploded rows in the group (titles are never missing in the model, so pandas
`count` is the group size). -/
def pub_count (rs : List Record) (a : String) : Nat :=
  (authorMemberships rs).countP (fun m => m.1 == a)

/-- `groupby("_authors").agg(cites=("cited_by", "sum"))`: the sum of
`cited_by` over the exploded rows of the group. -/
def cites (rs : List Record) (a : String) : Int :=
  (((authorMemberships rs).filter (fun m => m.1 == a)).map
    (fun m => m.2.cited_by)).sum

/-- Modelled from the spec's words for comparison (claim C5): each record
contributes at most ONE membership per distinct author string it contains. -/
def specAuthorPubCount (rs : List Record) (a : String) : Nat :=
  (rs.filter (fun r => (authorPieces r.authors_full).contains a)).length

/-- Modelled from the spec's words for comparison (claim C5): `cited_by`
summed once per contributing record. -/
def specAuthorCites (rs : List Record) (a : String) : Int :=
  ((rs.filter (fun r => (authorPieces r.authors_full).contains a)).map
    Record.cited_by).sum

/-! ## Paginated-document export (`utils_pdf.py`) -/

/-- The line-truncation step of `dataframe_to_pdf_bytes` (lines 37-38):
`row_str[:217] + "..."` whenever `len(row_str) > 220`. -/
def truncLine (s : String) : String :=
  if 220 < s.length then String.mk (s.toList.take 217) ++ "..." else s

/-- One data line of the PDF body (lines 35-38): the row is restricted to the
first 8 columns (`iloc[:, :max_cols]`, lines 25-27), each cell stringified
with `None` as the empty string, joined by `" | "`, then truncated. -/
def rowLine (row : List (Option String)) : String :=
  truncLine (String.intercalate " | " ((row.take 8).map (fun v => v.getD "")))

/-- The two header lines written before the data (lines 29-31): the first 8
column names joined by `", "`, then a rule of 120 dashes. -/
def headerLines (cols : List String) : List String :=
  [String.intercalate ", " (cols.take 8), String.mk (List.replicate 120 '-')]

/-- The row loop of lines 33-46: lines accumulate into the current page and
`line_count >= 35` flushes the page; the trailing `drawText/showPage`
(lines 48-49) always emits the final, possibly short, page. -/
def paginate : List String → List String → Nat → List (List String)
  | [], cur, _ => [cur]
  | l :: ls, cur, cnt =>
    if 35 ≤ cnt + 1 then (cur ++ [l]) :: paginate ls [] 0
    else paginate ls (cur ++ [l]) (cnt + 1)

/-- `dataframe_to_pdf_bytes` down to its page/line structure: header lines on
the first page, then the data lines paginated 35 per page. -/
def dataframe_to_pdf_pages (cols : List String)
    (rows : List (List (Option String))) : List (List String) :=
  paginate (rows.map rowLine) (headerLines cols) 0

/-- Concatenating all pages recovers the header followed by every line, in
order: `paginate` drops, duplicates and splits nothing. -/
theorem paginate_flatten (ls : List String) :
    ∀ cur cnt, (paginate ls cur cnt).flatten = cur ++ ls := by
  induction ls with
  | nil => intro cur cnt; simp [paginate]
  | cons l ls ih =>
    intro cur cnt
    unfold paginate
    by_cases h : 35 ≤ cnt + 1
    · rw [if_pos h]
      simp [ih]
    · rw [if_neg h, ih]
      simp

/-- While at least `35 - cnt` lines remain, the current page closes after
exactly `35 - cnt` more lines. -/
theorem paginate_split (ls : List String) :
    ∀ (cur : List String) (cnt : Nat), cnt < 35 → 35 - cnt ≤ ls.length →
      paginate ls cur cnt =
        (cur ++ ls.take (35 - cnt)) :: paginate (ls.drop (35 - cnt)) [] 0 := by
  induction ls with
  | nil =>
    intro cur cnt hcnt hlen
    simp at hlen
    omega
  | cons l ls ih =>
    intro cur cnt hcnt hlen
    rw [show paginate (l :: ls) cur cnt =
          if 35 ≤ cnt + 1 then (cur ++ [l]) :: paginate ls [] 0
          else paginate ls (cur ++ [l]) (cnt + 1) from rfl]
    by_cases h : 35 ≤ cnt + 1
    · rw [if_pos h]
      have h34 : cnt = 34 := by omega
      subst h34
      norm_num
    · rw [if_neg h]
      have hk : 35 - cnt = (35 - (cnt + 1)) + 1 := by omega
      rw [hk, List.take_succ_cons, List.drop_succ_cons,
        ih (cur ++ [l]) (cnt + 1) (by omega) (by simp at hlen; omega)]
      simp

/-- Fewer lines than fit on the page: everything lands on a single page. -/
theorem paginate_small (ls : List String) :
    ∀ (cur : List String) (cnt : Nat), ls.length + cnt < 35 →
      paginate ls cur cnt = [cur ++ ls] := by
  induction ls with
  | nil => intro cur cnt _; simp [paginate]
  | cons l ls ih =>
    intro cur cnt hlen
    unfold paginate
    rw [if_neg (by simp at hlen; omega), ih (cur ++ [l]) (cnt + 1) (by simp at hlen; omega)]
    simp

/-! ## Export section of `app.py` (lines 218-236) -/

/-- One user-visible effect of the export section: a download offer or a
non-blocking warning. -/
inductive UIEvent where
  | download (label : String) : UIEvent
  | warning (msg : String) : UIEvent
deriving Repr, DecidableEq

/-- The export block as the sequence of UI effects it issues: the CSV and
Excel download buttons are emitted unconditionally before the `try`
(lines 223-230); the PDF button is emitted only when
`dataframe_to_pdf_bytes` returns (lines 232-234), and any exception it
raises is caught and becomes a warning naming the PDF format (lines
235-236). -/
def exportSection (pdf : Except String (List (List String))) : List UIEvent :=
  [UIEvent.download "⬇️ Скачать CSV", UIEvent.download "⬇️ Скачать Excel"] ++
    match pdf with
    | Except.ok _ => [UIEvent.download "⬇️ Скачать PDF (бета)"]
    | Except.error e => [UIEvent.warning ("PDF экспорт недоступен: " ++ e)]

/-! ## Claim theorems: filtering and loading -/

/-- Claim C1: for every Record set and every filter specification, the
filtered result is a subsequence of the input: every surviving Record occurs
in the input, none is invented, and relative order is preserved. -/
theorem filter_is_subsequence (F : FilterSpec) (rs : List Record) :
    (filterRecords F rs).Sublist rs ∧
    ∀ r ∈ filterRecords F rs, r ∈ rs := by
  refine ⟨List.filter_sublist rs, fun r hr => ?_⟩
  exact (List.filter_sublist rs).mem hr

/-- Claim C2, counterexample: the free-text filter does NOT consult
`authors_raw`.  This record matches the query `"zeta"` in its lowercased
`authors_raw` but in none of `authors_full`, `title`, `source`, and the
search mask drops it — refuting the claimed four-field if-and-only-if. -/
theorem search_ignores_authors_raw :
    searchOk "zeta"
      ({ authors_raw := "Zeta Q.", authors_full := "B",
         title := "C", source := "D" } : Record) = false ∧
    containsSub (lowerStr "Zeta Q.") "zeta" = true := by decide

/-- Claim C2, amended: for queries of printable ASCII text free of regex
metacharacters (where `str.contains`' regex search is literal containment
and cannot raise) and Records whose searchable fields are ASCII (where
Unicode and ASCII lowercasing agree), the free-text filter keeps a Record
iff the lowercase form of at least one of the THREE fields `authors_full`,
`title`, `source` contains the stripped, lowercased query as a substring;
a blank query keeps every Record. -/
theorem search_matches_three_fields (q : String) (r : Record)
    (_hq : plainLiteralQuery q = true)
    (_haf : asciiOnly r.authors_full = true)
    (_hti : asciiOnly r.title = true)
    (_hso : asciiOnly r.source = true) :
    (stripStr (lowerStr q) = "" → searchOk q r = true) ∧
    (stripStr (lowerStr q) ≠ "" →
      (searchOk q r = true ↔
        (containsSub (lowerStr r.authors_full) (stripStr (lowerStr q)) = true ∨
         containsSub (lowerStr r.title) (stripStr (lowerStr q)) = true ∨
         containsSub (lowerStr r.source) (stripStr (lowerStr q)) = true))) := by
  constructor
  · intro h
    simp [searchOk, h]
  · intro h
    simp only [searchOk, if_neg h, searchHit, Bool.or_eq_true, or_assoc]

/-- Witness for C2's amended theorem at a concrete query and record. -/
theorem search_matches_three_fields_witness :
    searchOk "Lee" ({ authors_full := "Smith J.; Lee K." } : Record) = true :=
  ((search_matches_three_fields "Lee"
      { authors_full := "Smith J.; Lee K." }
      (by decide) (by decide) (by decide) (by decide)).2 (by decide)).mpr
    (Or.inl (by decide))

/-- Claim C3: a Record with absent `percentile_2024` is masked through the
sentinel `-1`, so every requested percentile range `(lo, hi)` with
`0 ≤ lo ≤ hi ≤ 100` excludes it. -/
theorem absent_percentile_excluded (lo hi : Int)
    (h0 : 0 ≤ lo) (_hlh : lo ≤ hi) (_h100 : hi ≤ 100) :
    pctOk lo hi none = false := by
  have hq : ¬ ((lo : ℚ) ≤ (none : Option ℚ).getD (-1)) := by
    have hcast : (0 : ℚ) ≤ (lo : ℚ) := by exact_mod_cast h0
    simp only [Option.getD]
    linarith
  simp only [pctOk, decide_eq_false hq, Bool.false_and]

/-- Witness for C3 at the range `(50, 100)` from the concrete scenario. -/
theorem absent_percentile_excluded_witness :
    pctOk 50 100 none = false :=
  absent_percentile_excluded 50 100 (by decide) (by decide) (by decide)

/-- Claim C6, counterexample: `load_data` only coerces, fills missing values
and truncates; a negative source value passes straight through `to_numeric`,
`fillna(0)` and `astype(int)`, so `cited_by` is NOT always non-negative. -/
theorem cited_by_negative_passthrough :
    loadCitedBy (Cell.int (-5)) = Except.ok (-5) ∧ ((-5 : Int) < 0) :=
  ⟨rfl, by decide⟩

/-- Claim C6, amended: `cited_by` is obtained by best-effort coercion with no
clamping and no totality on infinities: NaN entries (missing cells,
unparseable text, literal `nan`) load as 0; a finite source value loads as
its truncation toward zero (so decimals like `"3.5"` load as 3, `"-3.5"` as
-3, exponent text like `" 1e3 "` as 1000, and negative values stay
negative); the result is non-negative exactly when every finite source value
is non-negative; and an infinite source value makes `astype(int)` raise
instead of loading. -/
theorem cited_by_coercion (c : Cell) :
    (toNumeric c = none → loadCitedBy c = Except.ok 0) ∧
    (∀ q : ℚ, toNumeric c = some (PyNum.fin q) → loadCitedBy c = Except.ok (truncQ q)) ∧
    ((∀ q : ℚ, toNumeric c = some (PyNum.fin q) → 0 ≤ q) →
      ∀ n : Int, loadCitedBy c = Except.ok n → 0 ≤ n) ∧
    ((toNumeric c = some PyNum.inf ∨ toNumeric c = some PyNum.ninf) →
      loadCitedBy c = Except.error "ValueError") ∧
    loadCitedBy (Cell.str "3.5") = Except.ok 3 ∧
    loadCitedBy (Cell.str "-3.5") = Except.ok (-3) ∧
    loadCitedBy (Cell.str " 1e3 ") = Except.ok 1000 ∧
    loadCitedBy (Cell.str "inf") = Except.error "ValueError" ∧
    loadCitedBy (Cell.str "abc") = Except.ok 0 ∧
    loadCitedBy Cell.na = Except.ok 0 := by
  refine ⟨fun h => ?_, fun q h => ?_, fun h => ?_, fun h => ?_,
    by decide, by decide, by decide, by decide, by decide, by decide⟩
  · simp only [loadCitedBy, h, Option.getD]
    decide
  · simp [loadCitedBy, h]
  · intro n hn
    cases hc : toNumeric c with
    | none =>
      simp only [loadCitedBy, hc, Option.getD] at hn
      have hn0 : n = truncQ 0 := by simpa using hn.symm
      rw [hn0]
      decide
    | some p =>
      cases p with
      | fin q =>
        simp only [loadCitedBy, hc, Option.getD] at hn
        have hq : (0 : ℚ) ≤ q := h q hc
        have htr : truncQ q = n := by simpa using hn
        rw [← htr, truncQ, if_pos hq]
        exact Rat.le_floor.mpr (by exact_mod_cast hq)
      | inf => simp [loadCitedBy, hc] at hn
      | ninf => simp [loadCitedBy, hc] at hn
  · rcases h with h | h <;> simp [loadCitedBy, h]

/-- Witness for C6's amended theorem: an unparseable text cell loads as 0. -/
theorem cited_by_coercion_witness :
    loadCitedBy (Cell.str "abc") = Except.ok 0 :=
  (cited_by_coercion (Cell.str "abc")).1 (by decide)

/-- Claim C7: on loaded records (string or absent `doi`), `doi_link` is
present iff the `doi` is present and non-blank after stripping, in which case
it is the fixed prefix concatenated with the stripped DOI; including the
concrete `" 10.1/xyz "` and blank cases. -/
theorem doi_link_derivation (s : String) :
    (doiCellLink (Cell.str s) =
        Except.ok (some ("https://doi.org/" ++ stripStr s)) ↔ stripStr s ≠ "") ∧
    (stripStr s = "" → doiCellLink (Cell.str s) = Except.ok none) ∧
    doiCellLink Cell.na = Except.ok none ∧
    doiCellLink (Cell.str " 10.1/xyz ") = Except.ok (some "https://doi.org/10.1/xyz") ∧
    doiCellLink (Cell.str "   ") = Except.ok none := by
  have hpy : pyStr (Cell.str s) = s := rfl
  by_cases h : stripStr s = ""
  · have hres : doiCellLink (Cell.str s) = Except.ok none := by
      unfold doiCellLink
      rw [if_neg]
      intro hc
      exact hc.2 (hpy ▸ h)
    refine ⟨⟨fun hcontra => ?_, fun hne => absurd h hne⟩, fun _ => hres, rfl, rfl, rfl⟩
    rw [hres] at hcontra
    simp at hcontra
  · have hres : doiCellLink (Cell.str s) =
        Except.ok (some ("https://doi.org/" ++ stripStr s)) := by
      unfold doiCellLink
      rw [if_pos ⟨rfl, hpy ▸ h⟩]
    exact ⟨⟨fun _ => h, fun _ => hres⟩, fun hblank => absurd hblank h, rfl, rfl, rfl⟩

/-- Witness for C7 at a blank DOI. -/
theorem doi_link_derivation_witness :
    doiCellLink (Cell.str "") = Except.ok none :=
  (doi_link_derivation "").2.1 (by decide)

/-- Unfolding one record's contribution to `pub_count`: the exploded group
size grows by the record's multiplicity of the author piece. -/
theorem pub_count_cons (r : Record) (rs : List Record) (a : String) :
    pub_count (r :: rs) a = (authorPieces r.authors_full).count a + pub_count rs a := by
  simp only [pub_count, authorMemberships, List.flatMap_cons, List.countP_append,
    List.countP_map, List.count_eq_countP]
  rfl

/-- Unfolding one record's contribution to `cites`: each occurrence of the
author piece adds the record's `cited_by` once. -/
theorem cites_cons (r : Record) (rs : List Record) (a : String) :
    cites (r :: rs) a =
      ((authorPieces r.authors_full).count a : Int) * r.cited_by + cites rs a := by
  simp only [cites, authorMemberships, List.flatMap_cons, List.filter_append,
    List.map_append, List.sum_append, List.filter_map, List.map_map]
  congr 1
  rw [show ((fun m : String × Record => m.2.cited_by) ∘ fun x : String => (x, r)) =
        Function.const String r.cited_by from rfl]
  rw [List.map_const, List.sum_replicate, nsmul_eq_mul]
  congr 2
  rw [List.count_eq_countP, List.countP_eq_length_filter]
  rfl

/-- Claim C5, counterexample: `explode` keeps duplicated author pieces, so a
record whose `authors_full` repeats an author contributes TWO memberships to
that group (and its citations twice), not the one membership per distinct
author the claim describes. -/
theorem author_duplicate_membership :
    pub_count [({ authors_full := "A; A", cited_by := 3 } : Record)] "A" = 2 ∧
    specAuthorPubCount [({ authors_full := "A; A", cited_by := 3 } : Record)] "A" = 1 ∧
    cites [({ authors_full := "A; A", cited_by := 3 } : Record)] "A" = 6 ∧
    specAuthorCites [({ authors_full := "A; A", cited_by := 3 } : Record)] "A" = 3 := by
  decide

/-- Claim C5, amended: a record contributes one membership per occurrence of
a non-empty trimmed piece of its split `authors_full` (duplicates counted
with multiplicity); `pub_count` is the number of memberships and `cites` adds
`cited_by` once per membership.  The claim's concrete scenario (no
within-record duplicates) is unchanged: "Lee K." gets (2, 6) and "Smith J."
gets (1, 3). -/
theorem author_aggregation (rs : List Record) (a : String) :
    pub_count rs a = (rs.map (fun r => (authorPieces r.authors_full).count a)).sum ∧
    cites rs a =
      (rs.map (fun r => ((authorPieces r.authors_full).count a : Int) * r.cited_by)).sum ∧
    pub_count [({ authors_full := "Smith J.; Lee K.", cited_by := 3 } : Record),
               ({ authors_full := "Lee K.", cited_by := 3 } : Record)] "Lee K." = 2 ∧
    cites [({ authors_full := "Smith J.; Lee K.", cited_by := 3 } : Record),
           ({ authors_full := "Lee K.", cited_by := 3 } : Record)] "Lee K." = 6 ∧
    pub_count [({ authors_full := "Smith J.; Lee K.", cited_by := 3 } : Record),
               ({ authors_full := "Lee K.", cited_by := 3 } : Record)] "Smith J." = 1 ∧
    cites [({ authors_full := "Smith J.; Lee K.", cited_by := 3 } : Record),
           ({ authors_full := "Lee K.", cited_by := 3 } : Record)] "Smith J." = 3 := by
  refine ⟨?_, ?_, by decide, by decide, by decide, by decide⟩
  · induction rs with
    | nil => rfl
    | cons r rs ih => rw [pub_count_cons, List.map_cons, List.sum_cons, ih]
  · induction rs with
    | nil => rfl
    | cons r rs ih => rw [cites_cons, List.map_cons, List.sum_cons, ih]

/-- Claim C8 (code bug): loading is NOT total over cell values — a numeric
`doi` cell passes the guard `pd.notna(x) and str(x).strip()` (its string form
`"105"` is non-blank) and then crashes on `x.strip()`, aborting `load_data`
instead of degrading to a default. -/
theorem doi_numeric_cell_raises :
    doiCellLink (Cell.int 105) = Except.error "AttributeError" ∧
    stripStr (pyStr (Cell.int 105)) = "105" ∧
    notna (Cell.int 105) = true :=
  ⟨rfl, by decide, by decide⟩

/-- Claim C9: the paginated export emits exactly one line per input row in
input order (flattening the pages recovers the header followed by every data
line, so nothing is dropped or split across pages); a line depends only on
the first 8 columns; lines over 220 characters are cut to exactly 220 ending
in `"..."` and shorter lines pass unchanged; and a page closes after every 35
data lines, the remainder landing on a final short page. -/
theorem pdf_pagination (cols : List String) (rows : List (List (Option String))) :
    ((dataframe_to_pdf_pages cols rows).flatten =
        headerLines cols ++ rows.map rowLine) ∧
    (∀ row : List (Option String), rowLine row = rowLine (row.take 8)) ∧
    (∀ s : String, 220 < s.length →
        (truncLine s).length = 220 ∧ ∃ t, truncLine s = t ++ "...") ∧
    (∀ s : String, s.length ≤ 220 → truncLine s = s) ∧
    (∀ ls : List String, 35 ≤ ls.length →
        paginate ls [] 0 = ls.take 35 :: paginate (ls.drop 35) [] 0) ∧
    (35 ≤ rows.length →
        dataframe_to_pdf_pages cols rows =
          (headerLines cols ++ (rows.map rowLine).take 35) ::
            paginate ((rows.map rowLine).drop 35) [] 0) ∧
    (rows.length < 35 →
        dataframe_to_pdf_pages cols rows = [headerLines cols ++ rows.map rowLine]) := by
  refine ⟨paginate_flatten _ _ _, fun row => ?_, fun s hs => ⟨?_, ?_⟩, fun s hs => ?_,
    fun ls hls => ?_, fun hrows => ?_, fun hrows => ?_⟩
  · simp [rowLine, List.take_take]
  · rw [truncLine, if_pos hs, String.length_append]
    have h1 : (String.mk (s.toList.take 217)).length = min 217 s.length := by
      rw [show (String.mk (s.toList.take 217)).length = (s.toList.take 217).length from rfl,
        List.length_take]
      rfl
    rw [h1, min_eq_left (by omega)]
    decide
  · exact ⟨String.mk (s.toList.take 217), by rw [truncLine, if_pos hs]⟩
  · rw [truncLine, if_neg (by omega)]
  · simpa using paginate_split ls [] 0 (by omega) (by omega)
  · have := paginate_split (rows.map rowLine) (headerLines cols) 0 (by omega)
      (by simp; omega)
    simpa [dataframe_to_pdf_pages] using this
  · have := paginate_small (rows.map rowLine) (headerLines cols) 0 (by simp; omega)
    simpa [dataframe_to_pdf_pages] using this

/-- Witness for C9: the truncation facts at a concrete 221-character line and
the single-page layout of a concrete one-row export. -/
theorem pdf_pagination_witness :
    (truncLine (String.mk (List.replicate 221 'a'))).length = 220 ∧
    dataframe_to_pdf_pages ["c1"] [[some "v1"]] =
      [headerLines ["c1"] ++ [rowLine [some "v1"]]] :=
  ⟨((pdf_pagination [] []).2.2.1 (String.mk (List.replicate 221 'a')) (by decide)).1,
   by
    have h := (pdf_pagination ["c1"] [[some "v1"]]).2.2.2.2.2.2 (by decide)
    simpa using h⟩

/-- Claim C10: when the PDF serializer fails with any error, the export
section still offers the CSV and Excel downloads exactly as in the success
case, offers no PDF download, and surfaces exactly one non-blocking warning
naming the PDF format; the section never aborts (it is a total function of
the PDF outcome). -/
theorem pdf_failure_isolated (e : String) (pages : List (List String)) :
    exportSection (Except.error e) =
      [UIEvent.download "⬇️ Скачать CSV", UIEvent.download "⬇️ Скачать Excel",
       UIEvent.warning ("PDF экспорт недоступен: " ++ e)] ∧
    exportSection (Except.ok pages) =
      [UIEvent.download "⬇️ Скачать CSV", UIEvent.download "⬇️ Скачать Excel",
       UIEvent.download "⬇️ Скачать PDF (бета)"] ∧
    (exportSection (Except.error e)).take 2 = (exportSection (Except.ok pages)).take 2 ∧
    (∀ l, UIEvent.download l ∈ exportSection (Except.error e) →
      l = "⬇️ Скачать CSV" ∨ l = "⬇️ Скачать Excel") := by
  refine ⟨rfl, rfl, rfl, fun l hl => ?_⟩
  simp only [exportSection, List.cons_append, List.nil_append, List.mem_cons,
    List.not_mem_nil, or_false] at hl
  rcases hl with h | h | h
  · exact Or.inl (by injection h)
  · exact Or.inr (by injection h)
  · exact absurd h (by simp)

/-- Witness for C10 at a concrete error message. -/
theorem pdf_failure_isolated_witness :
    exportSection (Except.error "no backend") =
      [UIEvent.download "⬇️ Скачать CSV", UIEvent.download "⬇️ Скачать Excel",
       UIEvent.warning "PDF экспорт недоступен: no backend"] :=
  (pdf_failure_isolated "no backend" []).1

end ZhScopus
